import Mathlib

/-!
Verification development for the Screenux annotation editing engine
(`src/screenux_editor.py`).

The Python module stores annotations as string-keyed dicts and mutates an
`AnnotationEditor` object in place.  Here the same data is modelled as an
immutable record, and every event handler becomes a function from editor
state to editor state (`Option` when the Python code could raise).  Leading
underscores of the Python names are kept where Lean allows; coordinates and
colors are modelled as exact rationals.  A few names are shortened
(`Ann` for the record type, `_render_ann` for `_render_annotation`,
`_make_shape_ann` / `_make_text_ann` for the dict constructors); each such
definition says in its doc comment which source function it embeds.
-/

/-- One user-drawn mark (the `Annotation = dict[str, Any]` of the source).
`kind` and `current_tool` stay strings, as in the Python dicts.  Shape dicts
in the source carry no `"text"` key; the model keeps a `text` field that is
`""` for shapes and is never read or written for them, so record equality
agrees with dict deep-equality. -/
structure Ann where
  kind : String
  x1 : ℚ
  y1 : ℚ
  x2 : ℚ
  y2 : ℚ
  color : ℚ × ℚ × ℚ × ℚ
  text : String := ""
deriving DecidableEq

/-- `_annotation_bbox` (source lines 37-49): for `"text"` a synthesized
fixed-metric box, otherwise min/max of the two corner points. -/
def _annotation_bbox (ann : Ann) : ℚ × ℚ × ℚ × ℚ :=
  if ann.kind = "text" then
    (ann.x1, ann.y1 - 24, ann.x1 + max ((ann.text.length : ℚ) * 14) 20, ann.y1 + 4)
  else
    (min ann.x1 ann.x2, min ann.y1 ann.y2, max ann.x1 ann.x2, max ann.y1 ann.y2)

/-- `_hit_test` (source lines 52-54): point inside the bounding box expanded
by `padding` (default 8.0) on all sides. -/
def _hit_test (ann : Ann) (ix iy : ℚ) (padding : ℚ := 8) : Bool :=
  let b := _annotation_bbox ann
  decide ((b.1 - padding ≤ ix ∧ ix ≤ b.2.2.1 + padding) ∧
          (b.2.1 - padding ≤ iy ∧ iy ≤ b.2.2.2 + padding))

/-- Helper for `_find_hit`: scan indices `n-1, n-2, …, 0`, mirroring
`for i in range(len(self._annotations) - 1, -1, -1)`. -/
def findHitFrom (anns : List Ann ) (ix iy : ℚ) : Nat → Option Nat
  | 0 => none
  | n + 1 =>
    match anns[n]? with
    | some a => if _hit_test a ix iy then some n else findHitFrom anns ix iy n
    | none => findHitFrom anns ix iy n

/-- `AnnotationEditor._find_hit` (source lines 505-509): first hit scanning
from the last (top of z-order) annotation backward. -/
def _find_hit (anns : List Ann ) (ix iy : ℚ) : Option Nat :=
  findHitFrom anns ix iy anns.length

lemma findHitFrom_eq_some (anns : List Ann ) (ix iy : ℚ) (n i : Nat) :
    findHitFrom anns ix iy n = some i ↔
      i < n ∧ (∃ a, anns[i]? = some a ∧ _hit_test a ix iy = true) ∧
      ∀ j b, i < j → j < n → anns[j]? = some b → _hit_test b ix iy = false := by
  induction n with
  | zero => simp [findHitFrom]
  | succ n ih =>
    rw [findHitFrom]
    rcases hn : anns[n]? with _ | a
    · constructor
      · intro h
        obtain ⟨h1, h2, h3⟩ := ih.mp h
        refine ⟨Nat.lt_succ_of_lt h1, h2, ?_⟩
        intro j b hij hjn hjb
        rcases Nat.lt_succ_iff_lt_or_eq.mp hjn with hj | hj
        · exact h3 j b hij hj hjb
        · subst hj; rw [hn] at hjb; cases hjb
      · rintro ⟨h1, h2, h3⟩
        have hin : i < n := by
          rcases Nat.lt_succ_iff_lt_or_eq.mp h1 with h | h
          · exact h
          · subst h; obtain ⟨a, ha, _⟩ := h2; rw [hn] at ha; cases ha
        exact ih.mpr ⟨hin, h2, fun j b hij hjn hjb =>
          h3 j b hij (Nat.lt_succ_of_lt hjn) hjb⟩
    · by_cases hh : _hit_test a ix iy = true
      · simp only [hh, if_true]
        constructor
        · rintro h
          injection h with h; subst h
          exact ⟨Nat.lt_succ_self n, ⟨a, hn, hh⟩, fun j b hij hjn hjb =>
            absurd hjn (Nat.not_lt.mpr hij)⟩
        · rintro ⟨h1, h2, h3⟩
          rcases Nat.lt_succ_iff_lt_or_eq.mp h1 with h | h
          · exact absurd hh (by simpa using h3 n a h (Nat.lt_succ_self n) hn)
          · subst h; rfl
      · simp only [hh, Bool.false_eq_true, if_false]
        constructor
        · intro h
          obtain ⟨h1, h2, h3⟩ := ih.mp h
          refine ⟨Nat.lt_succ_of_lt h1, h2, ?_⟩
          intro j b hij hjn hjb
          rcases Nat.lt_succ_iff_lt_or_eq.mp hjn with hj | hj
          · exact h3 j b hij hj hjb
          · subst hj; rw [hn] at hjb; injection hjb with hjb; subst hjb
            exact Bool.eq_false_iff.mpr hh
        · rintro ⟨h1, h2, h3⟩
          have hin : i < n := by
            rcases Nat.lt_succ_iff_lt_or_eq.mp h1 with h | h
            · exact h
            · subst h; obtain ⟨b, hb, hbh⟩ := h2
              rw [hn] at hb; injection hb with hb; subst hb
              exact absurd hbh hh
          exact ih.mpr ⟨hin, h2, fun j b hij hjn hjb =>
            h3 j b hij (Nat.lt_succ_of_lt hjn) hjb⟩

lemma findHitFrom_eq_none (anns : List Ann ) (ix iy : ℚ) (n : Nat) :
    findHitFrom anns ix iy n = none ↔
      ∀ j b, j < n → anns[j]? = some b → _hit_test b ix iy = false := by
  induction n with
  | zero => simp [findHitFrom]
  | succ n ih =>
    rw [findHitFrom]
    rcases hn : anns[n]? with _ | a
    · rw [ih]
      constructor
      · intro h j b hjn hjb
        rcases Nat.lt_succ_iff_lt_or_eq.mp hjn with hj | hj
        · exact h j b hj hjb
        · subst hj; rw [hn] at hjb; cases hjb
      · intro h j b hjn hjb
        exact h j b (Nat.lt_succ_of_lt hjn) hjb
    · by_cases hh : _hit_test a ix iy = true
      · simp only [hh, if_true]
        constructor
        · intro h; cases h
        · intro h
          exact absurd hh (by simpa using h n a (Nat.lt_succ_self n) hn)
      · simp only [hh, Bool.false_eq_true, if_false]
        rw [ih]
        constructor
        · intro h j b hjn hjb
          rcases Nat.lt_succ_iff_lt_or_eq.mp hjn with hj | hj
          · exact h j b hj hjb
          · subst hj; rw [hn] at hjb; injection hjb with hjb; subst hjb
            exact Bool.eq_false_iff.mpr hh
        · intro h j b hjn hjb
          exact h j b (Nat.lt_succ_of_lt hjn) hjb

lemma find_hit_some_iff (anns : List Ann ) (ix iy : ℚ) (i : Nat) :
    _find_hit anns ix iy = some i ↔
      (∃ a, anns[i]? = some a ∧ _hit_test a ix iy = true) ∧
      ∀ j b, i < j → anns[j]? = some b → _hit_test b ix iy = false := by
  rw [_find_hit, findHitFrom_eq_some]
  constructor
  · rintro ⟨h1, h2, h3⟩
    refine ⟨h2, fun j b hij hjb => ?_⟩
    have hj : j < anns.length := by
      have := List.getElem?_eq_some.mp hjb
      exact this.1
    exact h3 j b hij hj hjb
  · rintro ⟨h2, h3⟩
    have hi : i < anns.length := by
      obtain ⟨a, ha, _⟩ := h2
      exact (List.getElem?_eq_some.mp ha).1
    exact ⟨hi, h2, fun j b hij _ hjb => h3 j b hij hjb⟩

/-- The mutable fields of `AnnotationEditor.__init__` (source lines 186-214)
that carry editor logic.  Widget handles, callbacks and the toolbar are UI
plumbing and are omitted; `surface` keeps only what the logic reads
(dimensions and opaque pixel content). -/
structure Surface where
  width : Nat
  height : Nat
  content : List Nat
deriving DecidableEq

structure EditorState where
  surface : Surface
  annotations : List Ann
  undo_stack : List (List Ann )
  redo_stack : List (List Ann )
  current_tool : String
  current_color : ℚ × ℚ × ℚ × ℚ
  selected_index : Option Nat
  dragging : Bool
  drag_start : Option (ℚ × ℚ)
  drag_end : Option (ℚ × ℚ)
  widget_drag_start : Option (ℚ × ℚ)
  move_dragging : Bool
  move_drag_start_img : Option (ℚ × ℚ)
  move_orig_ann : Option Ann
  pre_move_snapshot : Option (List Ann )
  pan_dragging : Bool
  pan_drag_start : Option (ℚ × ℚ)
  pan_start_values : Option (ℚ × ℚ)
  base_scale : ℚ
  zoom : ℚ
  scale : ℚ
  offset_x : ℚ
  offset_y : ℚ
  pan_x : ℚ
  pan_y : ℚ
deriving DecidableEq

/-- `_deep_copy_annotations` (source lines 113-114): `[dict(a) for a in annotations]`.
On immutable values a per-element copy is the identity map. -/
def _deep_copy_annotations (annotations : List Ann ) : List Ann :=
  annotations.map (fun a => a)

lemma deep_copy_eq (l : List Ann ) : _deep_copy_annotations l = l := by
  simp [_deep_copy_annotations]

/-- `AnnotationEditor._push_undo` (source lines 220-222). -/
def _push_undo (s : EditorState) : EditorState :=
  { s with undo_stack := s.undo_stack ++ [_deep_copy_annotations s.annotations],
           redo_stack := [] }

/-- `AnnotationEditor._on_undo` (source lines 224-230).  Python list `append`
and `pop` act on the end of the list, so the top of each stack is its last
element. -/
def _on_undo (s : EditorState) : EditorState :=
  match s.undo_stack.getLast? with
  | none => s
  | some prev =>
    { s with redo_stack := s.redo_stack ++ [_deep_copy_annotations s.annotations],
             annotations := prev,
             undo_stack := s.undo_stack.dropLast,
             selected_index := none }

/-- `AnnotationEditor._on_redo` (source lines 232-238). -/
def _on_redo (s : EditorState) : EditorState :=
  match s.redo_stack.getLast? with
  | none => s
  | some nxt =>
    { s with undo_stack := s.undo_stack ++ [_deep_copy_annotations s.annotations],
             annotations := nxt,
             redo_stack := s.redo_stack.dropLast,
             selected_index := none }

/-- `_make_shape_annotation` (source lines 117-125). -/
def _make_shape_ann (kind : String) (start e : ℚ × ℚ) (color : ℚ × ℚ × ℚ × ℚ) : Ann :=
  { kind := kind, x1 := start.1, y1 := start.2, x2 := e.1, y2 := e.2, color := color }

/-- `_make_text_annotation` (source lines 128-137). -/
def _make_text_ann (text : String) (position : ℚ × ℚ) (color : ℚ × ℚ × ℚ × ℚ) : Ann :=
  { kind := "text", x1 := position.1, y1 := position.2, x2 := position.1,
    y2 := position.2, color := color, text := text }

/-- `AnnotationEditor._widget_to_image` (source lines 487-493). -/
def _widget_to_image (s : EditorState) (wx wy : ℚ) : ℚ × ℚ :=
  if s.scale = 0 then (wx, wy)
  else ((wx - s.offset_x) / s.scale, (wy - s.offset_y) / s.scale)

/-- `AnnotationEditor._start_move` (source lines 511-517).  The source indexes
`self._annotations[hit_index]` with an index produced by `_find_hit`, which is
always in range; the model uses the total `getElem?` lookup. -/
def _start_move (s : EditorState) (hit_index : Nat) (ix iy wx wy : ℚ) : EditorState :=
  { s with selected_index := some hit_index,
           move_dragging := true,
           move_drag_start_img := some (ix, iy),
           move_orig_ann := s.annotations[hit_index]?,
           pre_move_snapshot := some (_deep_copy_annotations s.annotations),
           widget_drag_start := some (wx, wy) }

/-- `AnnotationEditor._start_pan` (source lines 519-523). -/
def _start_pan (s : EditorState) (wx wy : ℚ) : EditorState :=
  { s with selected_index := none,
           pan_dragging := true,
           pan_drag_start := some (wx, wy),
           pan_start_values := some (s.pan_x, s.pan_y) }

/-- `AnnotationEditor._update_pan` (source lines 525-532). -/
def _update_pan (s : EditorState) (offset_x offset_y : ℚ) : EditorState :=
  match s.pan_start_values with
  | none => s
  | some pv =>
    if s.scale ≠ 0 then
      { s with pan_x := pv.1 - offset_x / s.scale,
               pan_y := pv.2 - offset_y / s.scale }
    else s

/-- `AnnotationEditor._annotation_moved` (source lines 534-535). -/
def _annotation_moved (current original : Ann) : Bool :=
  decide (current.x1 ≠ original.x1 ∨ current.y1 ≠ original.y1 ∨
          current.x2 ≠ original.x2 ∨ current.y2 ≠ original.y2)

/-- `AnnotationEditor._set_select_tool` (source lines 435-441); only the
`current_tool` assignment is editor logic (the rest updates widgets). -/
def _set_select_tool (s : EditorState) : EditorState :=
  { s with current_tool := "select" }

/-- `AnnotationEditor._on_drag_begin` (source lines 568-588). -/
def _on_drag_begin (s : EditorState) (start_x start_y : ℚ) : EditorState :=
  let p := _widget_to_image s start_x start_y
  if s.current_tool = "select" then
    match _find_hit s.annotations p.1 p.2 with
    | some hit => _start_move s hit p.1 p.2 start_x start_y
    | none => _start_pan s start_x start_y
  else if s.current_tool ∈ (["rectangle", "fill_rectangle", "circle", "fill_circle"] : List String) then
    { s with widget_drag_start := some (start_x, start_y),
             drag_start := some p,
             drag_end := some p,
             dragging := true }
  else s

/-- `AnnotationEditor._on_drag_update` (source lines 590-614).  `none` models
the `TypeError`/`IndexError` the Python code would raise when
`move_drag_start_img`, `selected_index` or the indexed element is missing
while the move guard holds. -/
def _on_drag_update (s : EditorState) (offset_x offset_y : ℚ) : Option EditorState :=
  match s.move_dragging, s.widget_drag_start, s.move_orig_ann with
  | true, some wds, some orig =>
    match s.move_drag_start_img, s.selected_index with
    | some sp, some i =>
      match s.annotations[i]? with
      | some ann =>
        let wx := wds.1 + offset_x
        let wy := wds.2 + offset_y
        let p := _widget_to_image s wx wy
        let dx := p.1 - sp.1
        let dy := p.2 - sp.2
        let moved : Ann :=
          { ann with x1 := orig.x1 + dx, y1 := orig.y1 + dy,
                     x2 := orig.x2 + dx, y2 := orig.y2 + dy }
        some { s with annotations := s.annotations.set i moved }
      | none => none
    | _, _ => none
  | _, _, _ =>
    if s.pan_dragging ∧ s.pan_start_values.isSome then
      some (_update_pan s offset_x offset_y)
    else if s.dragging ∧ s.widget_drag_start.isSome then
      match s.widget_drag_start with
      | some wds =>
        some { s with drag_end := some (_widget_to_image s (wds.1 + offset_x) (wds.2 + offset_y)) }
      | none => some s
    else some s

/-- `AnnotationEditor._on_drag_end` (source lines 616-652).  `none` models the
`TypeError` raised when the drawing branch runs with `drag_start = None`. -/
def _on_drag_end (s : EditorState) (offset_x offset_y : ℚ) : Option EditorState :=
  if s.move_dragging then
    let s1 := { s with move_dragging := false }
    let s2 :=
      match s1.pre_move_snapshot, s1.move_orig_ann, s1.selected_index with
      | some snap, some orig, some i =>
        match s1.annotations[i]? with
        | some ann =>
          if _annotation_moved ann orig then
            { s1 with undo_stack := s1.undo_stack ++ [snap], redo_stack := [] }
          else s1
        | none => s1
      | _, _, _ => s1
    some { s2 with pre_move_snapshot := none, move_orig_ann := none }
  else if s.pan_dragging then
    some { s with pan_dragging := false, pan_drag_start := none, pan_start_values := none }
  else if s.dragging ∧ s.widget_drag_start.isSome then
    match s.widget_drag_start, s.drag_start with
    | some wds, some ds =>
      let de := _widget_to_image s (wds.1 + offset_x) (wds.2 + offset_y)
      let s1 := { s with drag_end := some de, dragging := false }
      let s2 := _push_undo s1
      let appended := s2.annotations ++ [_make_shape_ann s2.current_tool ds de s2.current_color]
      let s3 := { s2 with annotations := appended }
      some (_set_select_tool s3)
    | some _, none => none
    | none, _ => some s
  else some s

/-- The `on_activate` closure of `AnnotationEditor._show_text_popover`
(source lines 702-712): commit of the text-entry popover.  `entry_text` is
what the user typed; `ann_index` is the popover's `annotation_index`
argument (`some i` when editing an existing text annotation's text in
place).  `none` models the `IndexError` on a stale index. -/
def on_activate (s : EditorState) (entry_text : String) (ix iy : ℚ)
    (ann_index : Option Nat) : Option EditorState :=
  let text := entry_text.trim
  if text ≠ "" then
    match ann_index with
    | some i =>
      let s1 := _push_undo s
      match s1.annotations[i]? with
      | some ann => some { s1 with annotations := s1.annotations.set i ({ ann with text := text }) }
      | none => none
    | none =>
      let s1 := _push_undo s
      let appended := s1.annotations ++ [_make_text_ann text (ix, iy) s1.current_color]
      let s2 := { s1 with annotations := appended }
      some (_set_select_tool s2)
  else some s

/-- The Delete/BackSpace branch of `AnnotationEditor._on_key_pressed`
(source lines 726-732): delete the selected annotation behind an
index-validity guard. -/
def _on_key_delete (s : EditorState) : EditorState :=
  match s.selected_index with
  | some i =>
    if i < s.annotations.length then
      let s1 := _push_undo s
      { s1 with annotations := s1.annotations.eraseIdx i, selected_index := none }
    else s
  | none => s

/-- One cairo drawing call, so that rendering can be compared symbolically.
`arc_unit_circle` stands for the fixed call `cr.arc(0, 0, 1, 0, 2 * math.pi)`
(its arguments are constants in the source). -/
inductive DrawCmd where
  | new_path
  | set_source_rgba (r g b a : ℚ)
  | set_line_width (w : ℚ)
  | rect_path (x y w h : ℚ)
  | fill_preserve
  | stroke
  | ctx_save
  | translate (x y : ℚ)
  | scale_by (x y : ℚ)
  | arc_unit_circle
  | ctx_restore
  | set_font_size (n : ℚ)
  | move_to (x y : ℚ)
  | show_text (t : String)
  | set_source_surface (s : Surface) (x y : ℚ)
  | paint
  | set_dash (pat : List ℚ)
  | fill_path
deriving DecidableEq

/-- `_render_annotation` (source lines 57-90) as the list of cairo calls it
makes, in order. -/
def _render_ann (ann : Ann) : List DrawCmd :=
  let tail :=
    if ann.kind = "rectangle" ∨ ann.kind = "fill_rectangle" then
      [DrawCmd.rect_path (min ann.x1 ann.x2) (min ann.y1 ann.y2)
         |ann.x2 - ann.x1| |ann.y2 - ann.y1|]
      ++ (if ann.kind = "fill_rectangle" then [DrawCmd.fill_preserve] else [])
      ++ [DrawCmd.stroke]
    else if ann.kind = "circle" ∨ ann.kind = "fill_circle" then
      let rx := |ann.x2 - ann.x1| / 2
      let ry := |ann.y2 - ann.y1| / 2
      if 0 < rx ∧ 0 < ry then
        [DrawCmd.ctx_save, DrawCmd.translate ((ann.x1 + ann.x2) / 2) ((ann.y1 + ann.y2) / 2),
         DrawCmd.scale_by rx ry, DrawCmd.arc_unit_circle, DrawCmd.ctx_restore]
        ++ (if ann.kind = "fill_circle" then [DrawCmd.fill_preserve] else [])
        ++ [DrawCmd.stroke]
      else []
    else if ann.kind = "text" then
      [DrawCmd.set_font_size 24, DrawCmd.move_to ann.x1 ann.y1, DrawCmd.show_text ann.text]
    else []
  [DrawCmd.new_path,
   DrawCmd.set_source_rgba ann.color.1 ann.color.2.1 ann.color.2.2.1 ann.color.2.2.2,
   DrawCmd.set_line_width 3] ++ tail

/-- `_render_selection_indicator` (source lines 93-110): dashed box around
the padded bounding box plus four filled corner handles.  The only
`set_dash` calls in the whole source module occur here. -/
def _render_selection_indicator (ann : Ann) : List DrawCmd :=
  let b := _annotation_bbox ann
  let x1 := b.1 - 4
  let y1 := b.2.1 - 4
  let x2 := b.2.2.1 + 4
  let y2 := b.2.2.2 + 4
  let hs : ℚ := 6 / 2
  [DrawCmd.new_path,
   DrawCmd.set_source_rgba 0.2 0.5 1 0.8,
   DrawCmd.set_line_width 1.5,
   DrawCmd.set_dash [6, 4],
   DrawCmd.rect_path x1 y1 (x2 - x1) (y2 - y1),
   DrawCmd.stroke,
   DrawCmd.set_dash []]
  ++ ([(x1, y1), (x2, y1), (x1, y2), (x2, y2)].flatMap
        (fun p => [DrawCmd.rect_path (p.1 - hs) (p.2 - hs) 6 6, DrawCmd.fill_path]))

/-- The output of `AnnotationEditor._render_output_surface`: pixel dimensions
of the created `cairo.ImageSurface` plus the drawing calls applied to it. -/
structure OutputImage where
  width : Nat
  height : Nat
  cmds : List DrawCmd
deriving DecidableEq

/-- `AnnotationEditor._render_output_surface` (source lines 451-460): paint
the base surface at the origin at its native resolution, then draw every
annotation in sequence order.  It reads nothing but `self._surface` and
`self._annotations`. -/
def _render_output_surface (s : EditorState) : OutputImage :=
  { width := s.surface.width,
    height := s.surface.height,
    cmds := [DrawCmd.set_source_surface s.surface 0 0, DrawCmd.paint]
      ++ s.annotations.flatMap _render_ann }

/-- A file system for the save path: file contents by (absolute) name, plus
the set of existing directories. -/
structure FS where
  files : List (String × List Nat)
  dirs : List String
deriving DecidableEq

/-- The collaborators `_do_save` and `_write_surface_png_securely` call out
to, plus the oracles deciding whether the external steps succeed:
`build_output_path` is the result of `self._build_output_path(...)`
(`Except.error` when that callable raises), `resolve` models
`Path.expanduser().resolve()`, `parent_of` models `.parent`, `encode_png`
models `surface.write_to_png` into a buffer, `write_ok` tells whether the
`handle.write/flush/fsync` block succeeds, `leftover` is what remains on
disk if it fails, and `unlink_ok` tells whether the cleanup `unlink`
succeeds. -/
structure SaveEnv where
  fs : FS
  build_output_path : Except String String
  resolve : String → String
  parent_of : String → String
  encode_png : OutputImage → List Nat
  write_ok : Bool
  leftover : List Nat
  unlink_ok : Bool

/-- `_write_surface_png_securely` (source lines 140-165), returning the file
system after the call together with `ok` or the raised error.  The
`os.open(destination, O_WRONLY | O_CREAT | O_EXCL, 0o600)` call fails
without touching the file when the destination already exists; on a write
failure the newly created file is unlinked (best effort, `unlink` may
itself fail and leave partial data). -/
def _write_surface_png_securely (env : SaveEnv) (surface : OutputImage)
    (dest : String) : FS × Except String Unit :=
  let destination := env.resolve dest
  let parent := env.parent_of destination
  if parent ∉ env.fs.dirs then
    (env.fs, Except.error "destination directory does not exist")
  else
    let data := env.encode_png surface
    if (env.fs.files.lookup destination).isSome then
      (env.fs, Except.error "FileExistsError")
    else if env.write_ok then
      ({ env.fs with files := (destination, data) :: env.fs.files }, Except.ok ())
    else if env.unlink_ok then
      (env.fs, Except.error "write failed")
    else
      ({ env.fs with files := (destination, env.leftover) :: env.fs.files },
       Except.error "write failed")

/-- Outcome reported by `_do_save`: either the `self._on_save(dest)`
notification or the non-fatal `self._on_error(...)` status message. -/
inductive SaveOutcome where
  | saved (dest : String)
  | status_message (msg : String)
deriving DecidableEq

/-- `AnnotationEditor._do_save` (source lines 781-788): render the output,
resolve the destination, write, and convert any raised error into the
status message `could not save image (<detail>)`.  The editor state is
threaded through unchanged because the source method never touches
`self._annotations`, `self._undo_stack` or `self._redo_stack`. -/
def _do_save (s : EditorState) (env : SaveEnv) : EditorState × FS × SaveOutcome :=
  let output := _render_output_surface s
  match env.build_output_path with
  | Except.error err =>
    (s, env.fs, SaveOutcome.status_message ("could not save image (" ++ err ++ ")"))
  | Except.ok dest =>
    let r := _write_surface_png_securely env output dest
    match r.2 with
    | Except.ok _ => (s, r.1, SaveOutcome.saved dest)
    | Except.error err =>
      (s, r.1, SaveOutcome.status_message ("could not save image (" ++ err ++ ")"))

/-- The five mutating editor operations of the spec, with the input-event
parameters that drive them.  `add_shape` is the pointer gesture
begin-at-(sx,sy) / end-at-offset-(ox,oy) with a shape tool; `move_ann` is
begin / one pointer-move at offset (ox,oy) / end with the `select` tool over
an annotation; the text operations are the popover commit; delete is the
Delete-key branch. -/
inductive MutOp where
  | add_shape (start_x start_y offset_x offset_y : ℚ)
  | add_text (entry_text : String) (wx wy : ℚ)
  | edit_text (entry_text : String) (i : Nat)
  | delete_selected
  | move_ann (start_x start_y offset_x offset_y : ℚ)

/-- Run one mutating operation as the composition of the source event
handlers. -/
def applyOp (op : MutOp) (s : EditorState) : Option EditorState :=
  match op with
  | MutOp.add_shape sx sy ox oy => _on_drag_end (_on_drag_begin s sx sy) ox oy
  | MutOp.add_text t wx wy =>
    let p := _widget_to_image s wx wy
    on_activate s t p.1 p.2 none
  | MutOp.edit_text t i => on_activate s t 0 0 (some i)
  | MutOp.delete_selected => some (_on_key_delete s)
  | MutOp.move_ann sx sy ox oy =>
    (_on_drag_update (_on_drag_begin s sx sy) ox oy).bind
      (fun s2 => _on_drag_end s2 ox oy)

/-- Preconditions under which the operation actually mutates the store: the
right tool is active, no other gesture is in flight, the text is non-empty
after trimming, the targeted index is valid, and (for a move) the pointer
actually moved. -/
def appliesOp (op : MutOp) (s : EditorState) : Prop :=
  match op with
  | MutOp.add_shape _ _ _ _ =>
    s.current_tool ∈ (["rectangle", "fill_rectangle", "circle", "fill_circle"] : List String) ∧
    s.move_dragging = false ∧ s.pan_dragging = false
  | MutOp.add_text t _ _ => t.trim ≠ ""
  | MutOp.edit_text t i => t.trim ≠ "" ∧ i < s.annotations.length
  | MutOp.delete_selected => ∃ i, s.selected_index = some i ∧ i < s.annotations.length
  | MutOp.move_ann sx sy ox oy =>
    s.current_tool = "select" ∧
    (_find_hit s.annotations (_widget_to_image s sx sy).1 (_widget_to_image s sx sy).2).isSome = true ∧
    ¬(ox = 0 ∧ oy = 0)

lemma undo_empty_noop (s : EditorState) (h : s.undo_stack = []) : _on_undo s = s := by
  simp [_on_undo, h]

lemma redo_empty_noop (s : EditorState) (h : s.redo_stack = []) : _on_redo s = s := by
  simp [_on_redo, h]

lemma undo_redo_of_push (pre : List Ann ) (s' : EditorState) (L : List (List Ann ))
    (hu : s'.undo_stack = L ++ [pre]) :
    (_on_undo s').annotations = pre ∧ (_on_redo (_on_undo s')).annotations = s'.annotations := by
  have h1 : s'.undo_stack.getLast? = some pre := by
    rw [hu]; exact List.getLast?_concat L
  constructor
  · simp [_on_undo, h1]
  · simp [_on_undo, h1, _on_redo, deep_copy_eq, List.getLast?_concat]

lemma set_of_getElem? {α : Type} (l : List α) (i : Nat) (a : α)
    (h : l[i]? = some a) : l.set i a = l := by
  induction l generalizing i with
  | nil => simp at h
  | cons x xs ih =>
    cases i with
    | zero => simp at h; simp [h]
    | succ n =>
      simp only [List.getElem?_cons_succ] at h
      simp [List.set_cons_succ, ih n h]

lemma drag_begin_shape (s : EditorState) (sx sy : ℚ)
    (h : s.current_tool ∈ (["rectangle", "fill_rectangle", "circle", "fill_circle"] : List String)) :
    _on_drag_begin s sx sy =
      { s with widget_drag_start := some (sx, sy),
               drag_start := some (_widget_to_image s sx sy),
               drag_end := some (_widget_to_image s sx sy),
               dragging := true } := by
  have h4 : s.current_tool = "rectangle" ∨ s.current_tool = "fill_rectangle" ∨
      s.current_tool = "circle" ∨ s.current_tool = "fill_circle" := by
    simpa using h
  have hne : ¬ s.current_tool = "select" := by
    rcases h4 with h4 | h4 | h4 | h4 <;> simp [h4]
  simp [_on_drag_begin, hne, h]

lemma drag_begin_select_hit (s : EditorState) (sx sy : ℚ) (hit : Nat)
    (ht : s.current_tool = "select")
    (hfind : _find_hit s.annotations (_widget_to_image s sx sy).1
      (_widget_to_image s sx sy).2 = some hit) :
    _on_drag_begin s sx sy =
      { s with selected_index := some hit,
               move_dragging := true,
               move_drag_start_img := some (_widget_to_image s sx sy),
               move_orig_ann := s.annotations[hit]?,
               pre_move_snapshot := some s.annotations,
               widget_drag_start := some (sx, sy) } := by
  simp [_on_drag_begin, ht, hfind, _start_move, deep_copy_eq]

lemma widget_to_image_congr (s t : EditorState) (wx wy : ℚ)
    (hsc : t.scale = s.scale) (hox : t.offset_x = s.offset_x)
    (hoy : t.offset_y = s.offset_y) :
    _widget_to_image t wx wy = _widget_to_image s wx wy := by
  simp [_widget_to_image, hsc, hox, hoy]

lemma drag_end_shape (s : EditorState) (ox oy : ℚ) (w d : ℚ × ℚ)
    (hm : s.move_dragging = false) (hp : s.pan_dragging = false)
    (hd : s.dragging = true) (hw : s.widget_drag_start = some w)
    (hds : s.drag_start = some d) :
    _on_drag_end s ox oy = some
      { s with drag_end := some (_widget_to_image s (w.1 + ox) (w.2 + oy)),
               dragging := false,
               undo_stack := s.undo_stack ++ [s.annotations],
               redo_stack := [],
               annotations := s.annotations ++
                 [_make_shape_ann s.current_tool d (_widget_to_image s (w.1 + ox) (w.2 + oy)) s.current_color],
               current_tool := "select" } := by
  simp [_on_drag_end, hm, hp, hd, hw, hds, _push_undo, deep_copy_eq, _set_select_tool]

lemma spec_add_shape (s : EditorState) (sx sy ox oy : ℚ)
    (h : appliesOp (MutOp.add_shape sx sy ox oy) s) :
    ∃ s', applyOp (MutOp.add_shape sx sy ox oy) s = some s' ∧
      s'.undo_stack = s.undo_stack ++ [s.annotations] ∧
      s'.redo_stack = [] := by
  obtain ⟨htool, hm, hp⟩ := h
  have h1 := drag_begin_shape s sx sy htool
  have h2 := drag_end_shape (_on_drag_begin s sx sy) ox oy (sx, sy) (_widget_to_image s sx sy)
    (by rw [h1]; exact hm) (by rw [h1]; exact hp) (by rw [h1]) (by rw [h1]) (by rw [h1])
  rw [applyOp, h2]
  refine ⟨_, rfl, ?_, ?_⟩ <;> simp [h1]

lemma spec_add_text (s : EditorState) (t : String) (wx wy : ℚ)
    (h : appliesOp (MutOp.add_text t wx wy) s) :
    ∃ s', applyOp (MutOp.add_text t wx wy) s = some s' ∧
      s'.undo_stack = s.undo_stack ++ [s.annotations] ∧
      s'.redo_stack = [] := by
  have ht : t.trim ≠ "" := h
  rw [applyOp]
  simp only [on_activate, _push_undo, deep_copy_eq, _set_select_tool]
  rw [if_pos ht]
  refine ⟨_, rfl, ?_, ?_⟩ <;> simp

lemma spec_edit_text (s : EditorState) (t : String) (i : Nat)
    (h : appliesOp (MutOp.edit_text t i) s) :
    ∃ s', applyOp (MutOp.edit_text t i) s = some s' ∧
      s'.undo_stack = s.undo_stack ++ [s.annotations] ∧
      s'.redo_stack = [] := by
  obtain ⟨ht, hi⟩ := h
  have hget : s.annotations[i]? = some (s.annotations[i]) :=
    List.getElem?_eq_getElem hi
  rw [applyOp]
  simp only [on_activate, _push_undo, deep_copy_eq]
  rw [if_pos ht]
  simp only [hget]
  refine ⟨_, rfl, ?_, ?_⟩ <;> simp

lemma spec_delete (s : EditorState)
    (h : appliesOp MutOp.delete_selected s) :
    ∃ s', applyOp MutOp.delete_selected s = some s' ∧
      s'.undo_stack = s.undo_stack ++ [s.annotations] ∧
      s'.redo_stack = [] := by
  obtain ⟨i, hsel, hi⟩ := h
  rw [applyOp]
  simp only [_on_key_delete, hsel, _push_undo, deep_copy_eq]
  rw [if_pos hi]
  refine ⟨_, rfl, ?_, ?_⟩ <;> simp

lemma widget_delta_ne_zero (s : EditorState) (sx sy ox oy : ℚ)
    (h : ¬(ox = 0 ∧ oy = 0)) :
    (_widget_to_image s (sx + ox) (sy + oy)).1 - (_widget_to_image s sx sy).1 ≠ 0 ∨
    (_widget_to_image s (sx + ox) (sy + oy)).2 - (_widget_to_image s sx sy).2 ≠ 0 := by
  rcases not_and_or.mp h with ho | ho
  · left
    by_cases hs : s.scale = 0
    · simpa [_widget_to_image, hs] using ho
    · simp only [_widget_to_image, hs, if_neg, if_false]
      rw [div_sub_div_same]
      have : sx + ox - s.offset_x - (sx - s.offset_x) = ox := by ring
      rw [this]
      exact div_ne_zero ho hs
  · right
    by_cases hs : s.scale = 0
    · simpa [_widget_to_image, hs] using ho
    · simp only [_widget_to_image, hs, if_neg, if_false]
      rw [div_sub_div_same]
      have : sy + oy - s.offset_y - (sy - s.offset_y) = oy := by ring
      rw [this]
      exact div_ne_zero ho hs

/-- The annotation produced by one move-mode `_on_drag_update` step: the
pre-move snapshot `orig` shifted by the total image-space delta (the
non-coordinate fields come from the current list entry `ann`). -/
def movedBy (orig ann : Ann) (dx dy : ℚ) : Ann :=
  { ann with x1 := orig.x1 + dx, y1 := orig.y1 + dy,
             x2 := orig.x2 + dx, y2 := orig.y2 + dy }

lemma drag_update_move (s : EditorState) (ox oy : ℚ) (w sp : ℚ × ℚ)
    (orig ann : Ann) (i : Nat)
    (hm : s.move_dragging = true) (hw : s.widget_drag_start = some w)
    (ho : s.move_orig_ann = some orig) (hsp : s.move_drag_start_img = some sp)
    (hsel : s.selected_index = some i) (hai : s.annotations[i]? = some ann) :
    _on_drag_update s ox oy = some
      { s with annotations := s.annotations.set i (movedBy orig ann
          ((_widget_to_image s (w.1 + ox) (w.2 + oy)).1 - sp.1)
          ((_widget_to_image s (w.1 + ox) (w.2 + oy)).2 - sp.2)) } := by
  simp [_on_drag_update, hm, hw, ho, hsp, hsel, hai, movedBy]

lemma drag_end_move_changed (s : EditorState) (ox oy : ℚ) (snap : List Ann )
    (orig ann : Ann) (i : Nat)
    (hm : s.move_dragging = true) (hsnap : s.pre_move_snapshot = some snap)
    (ho : s.move_orig_ann = some orig) (hsel : s.selected_index = some i)
    (hai : s.annotations[i]? = some ann)
    (hmoved : _annotation_moved ann orig = true) :
    _on_drag_end s ox oy = some
      { s with move_dragging := false,
               undo_stack := s.undo_stack ++ [snap],
               redo_stack := [],
               pre_move_snapshot := none,
               move_orig_ann := none } := by
  simp [_on_drag_end, hm, hsnap, ho, hsel, hai, hmoved]

lemma drag_end_move_unchanged (s : EditorState) (ox oy : ℚ) (snap : List Ann )
    (orig ann : Ann) (i : Nat)
    (hm : s.move_dragging = true) (hsnap : s.pre_move_snapshot = some snap)
    (ho : s.move_orig_ann = some orig) (hsel : s.selected_index = some i)
    (hai : s.annotations[i]? = some ann)
    (hmoved : _annotation_moved ann orig = false) :
    _on_drag_end s ox oy = some
      { s with move_dragging := false,
               pre_move_snapshot := none,
               move_orig_ann := none } := by
  simp [_on_drag_end, hm, hsnap, ho, hsel, hai, hmoved]

lemma moved_of_delta_ne (orig ann : Ann) (dx dy : ℚ) (h : dx ≠ 0 ∨ dy ≠ 0) :
    _annotation_moved (movedBy orig ann dx dy) orig = true := by
  simp only [_annotation_moved, movedBy, decide_eq_true_eq]
  rcases h with h | h
  · exact Or.inl (by simpa using h)
  · exact Or.inr (Or.inl (by simpa using h))

lemma spec_move (s : EditorState) (sx sy ox oy : ℚ)
    (h : appliesOp (MutOp.move_ann sx sy ox oy) s) :
    ∃ s', applyOp (MutOp.move_ann sx sy ox oy) s = some s' ∧
      s'.undo_stack = s.undo_stack ++ [s.annotations] ∧
      s'.redo_stack = [] := by
  obtain ⟨ht, hhit, hne⟩ := h
  obtain ⟨hit, hfind⟩ := Option.isSome_iff_exists.mp hhit
  obtain ⟨⟨orig, horig, _⟩, _⟩ := (find_hit_some_iff _ _ _ hit).mp hfind
  have hlen : hit < s.annotations.length := (List.getElem?_eq_some.mp horig).1
  have h1 := drag_begin_select_hit s sx sy hit ht hfind
  have hWcong : ∀ x y : ℚ,
      _widget_to_image (_on_drag_begin s sx sy) x y = _widget_to_image s x y := by
    intro x y
    refine widget_to_image_congr s _ x y ?_ ?_ ?_ <;> rw [h1]
  have h2 := drag_update_move (_on_drag_begin s sx sy) ox oy (sx, sy)
      (_widget_to_image s sx sy) orig orig hit
      (by rw [h1]) (by rw [h1]) (by rw [h1]; exact horig) (by rw [h1])
      (by rw [h1]) (by rw [h1]; exact horig)
  have hdelta :
      (_widget_to_image (_on_drag_begin s sx sy) ((sx, sy).1 + ox) ((sx, sy).2 + oy)).1 -
        (_widget_to_image s sx sy).1 ≠ 0 ∨
      (_widget_to_image (_on_drag_begin s sx sy) ((sx, sy).1 + ox) ((sx, sy).2 + oy)).2 -
        (_widget_to_image s sx sy).2 ≠ 0 := by
    simp only [hWcong]
    exact widget_delta_ne_zero s sx sy ox oy hne
  have hmoved := moved_of_delta_ne orig orig _ _ hdelta
  rw [applyOp]
  simp only [hWcong] at h2 hmoved
  simp only [h1] at h2
  simp only [h1]
  rw [h2]
  simp [Option.some_bind, _on_drag_end, horig, List.getElem?_set_self hlen, hmoved]

lemma applyOp_spec (op : MutOp) (s : EditorState) (h : appliesOp op s) :
    ∃ s', applyOp op s = some s' ∧
      s'.undo_stack = s.undo_stack ++ [s.annotations] ∧
      s'.redo_stack = [] := by
  cases op with
  | add_shape sx sy ox oy => exact spec_add_shape s sx sy ox oy h
  | add_text t wx wy => exact spec_add_text s t wx wy h
  | edit_text t i => exact spec_edit_text s t i h
  | delete_selected => exact spec_delete s h
  | move_ann sx sy ox oy => exact spec_move s sx sy ox oy h

lemma drag_update_move_zero (t : EditorState) (w sp : ℚ × ℚ) (orig ann : Ann) (i : Nat)
    (hm : t.move_dragging = true) (hw : t.widget_drag_start = some w)
    (ho : t.move_orig_ann = some orig) (hsp : t.move_drag_start_img = some sp)
    (hsel : t.selected_index = some i) (hai : t.annotations[i]? = some ann)
    (hspeq : _widget_to_image t w.1 w.2 = sp) :
    _on_drag_update t 0 0 = some
      { t with annotations := t.annotations.set i (movedBy orig ann 0 0) } := by
  have h := drag_update_move t 0 0 w sp orig ann i hm hw ho hsp hsel hai
  simpa [hspeq] using h

/-- C1: for each of the five mutating operations, run under its
applicability conditions, `undo` right afterwards restores the exact
pre-operation annotation sequence, and `redo` right after that restores the
exact post-operation sequence. -/
theorem undo_redo_inverse_law (op : MutOp) (s : EditorState) (h : appliesOp op s) :
    ∃ s', applyOp op s = some s' ∧
      (_on_undo s').annotations = s.annotations ∧
      (_on_redo (_on_undo s')).annotations = s'.annotations := by
  obtain ⟨s', hA, hu, _⟩ := applyOp_spec op s h
  obtain ⟨h1, h2⟩ := undo_redo_of_push s.annotations s' s.undo_stack hu
  exact ⟨s', hA, h1, h2⟩

/-- C2: every mutating operation (a committed move included) leaves the redo
stack empty, so a `redo` issued right after it is a complete no-op; redo
history is never merged with new edits. -/
theorem redo_invalidation_law (op : MutOp) (s : EditorState) (h : appliesOp op s) :
    ∃ s', applyOp op s = some s' ∧ s'.redo_stack = [] ∧ _on_redo s' = s' := by
  obtain ⟨s', hA, _, hr⟩ := applyOp_spec op s h
  exact ⟨s', hA, hr, redo_empty_noop s' hr⟩

/-- C4: a select-tool drag that starts over an annotation, moves by some
offset and returns to its starting point leaves every coordinate of every
annotation exactly equal to its pre-drag value, and commits no undo entry
(both history stacks are exactly as before the gesture). -/
theorem move_round_trip (s : EditorState) (sx sy ox oy : ℚ)
    (ht : s.current_tool = "select")
    (hh : (_find_hit s.annotations (_widget_to_image s sx sy).1
      (_widget_to_image s sx sy).2).isSome = true) :
    ∃ s3, (_on_drag_update (_on_drag_begin s sx sy) ox oy).bind
        (fun s1 => (_on_drag_update s1 0 0).bind (fun s2 => _on_drag_end s2 0 0)) = some s3 ∧
      s3.annotations = s.annotations ∧
      s3.undo_stack = s.undo_stack ∧
      s3.redo_stack = s.redo_stack := by
  obtain ⟨hit, hfind⟩ := Option.isSome_iff_exists.mp hh
  obtain ⟨⟨orig, horig, _⟩, _⟩ := (find_hit_some_iff _ _ _ hit).mp hfind
  have hlen : hit < s.annotations.length := (List.getElem?_eq_some.mp horig).1
  have h1 := drag_begin_select_hit s sx sy hit ht hfind
  have hWcong : ∀ x y : ℚ,
      _widget_to_image (_on_drag_begin s sx sy) x y = _widget_to_image s x y := by
    intro x y
    refine widget_to_image_congr s _ x y ?_ ?_ ?_ <;> rw [h1]
  have h2 := drag_update_move (_on_drag_begin s sx sy) ox oy (sx, sy)
      (_widget_to_image s sx sy) orig orig hit
      (by rw [h1]) (by rw [h1]) (by rw [h1]; exact horig) (by rw [h1])
      (by rw [h1]) (by rw [h1]; exact horig)
  obtain ⟨S2, hS2⟩ := Option.isSome_iff_exists.mp
    (show (_on_drag_update (_on_drag_begin s sx sy) ox oy).isSome = true by rw [h2]; rfl)
  have hE : S2 = _ := (Option.some_inj.mp (h2.symm.trans hS2)).symm
  simp only [hWcong] at hE
  simp only [h1] at hE
  have p_m : S2.move_dragging = true := by rw [hE]
  have p_w : S2.widget_drag_start = some (sx, sy) := by rw [hE]
  have p_o : S2.move_orig_ann = some orig := by rw [hE]; exact horig
  have p_sp : S2.move_drag_start_img = some (_widget_to_image s sx sy) := by rw [hE]
  have p_sel : S2.selected_index = some hit := by rw [hE]
  have p_sc : _widget_to_image S2 sx sy = _widget_to_image s sx sy := by
    refine widget_to_image_congr s S2 sx sy ?_ ?_ ?_ <;> rw [hE]
  obtain ⟨A, p_ai, hA⟩ : ∃ A, S2.annotations[hit]? = some A ∧ movedBy orig A 0 0 = orig := by
    rw [hE]
    exact ⟨_, by simpa using List.getElem?_set_self hlen, by simp [movedBy]⟩
  have p_set : S2.annotations.set hit orig = s.annotations := by
    rw [hE]
    simp [List.set_set, set_of_getElem? s.annotations hit orig horig]
  have h3 := drag_update_move_zero S2 (sx, sy) (_widget_to_image s sx sy) orig A hit
      p_m p_w p_o p_sp p_sel p_ai p_sc
  rw [hA, p_set] at h3
  have p_snap : S2.pre_move_snapshot = some s.annotations := by rw [hE]
  have h4 := drag_end_move_unchanged ({ S2 with annotations := s.annotations }) 0 0
      s.annotations orig orig hit p_m p_snap p_o p_sel horig
      (by simp [_annotation_moved])
  rw [hS2]
  simp only [Option.some_bind]
  rw [h3]
  simp only [Option.some_bind]
  rw [h4]
  refine ⟨_, rfl, rfl, ?_, ?_⟩ <;> rw [hE]

lemma no_dash_render_ann (a : Ann) (pat : List ℚ) :
    DrawCmd.set_dash pat ∉ _render_ann a := by
  simp only [_render_ann]
  split_ifs <;> simp

/-- C3: `_find_hit` returns the largest index whose padded-bounding-box hit
test succeeds and `none` when no test succeeds; in particular a point inside
both of two overlapping annotations at indices 0 and 1 hit-tests to 1. -/
theorem find_hit_topmost (anns : List Ann ) (ix iy : ℚ) :
    (∀ i, _find_hit anns ix iy = some i ↔
      (∃ a, anns[i]? = some a ∧ _hit_test a ix iy = true) ∧
      ∀ j b, i < j → anns[j]? = some b → _hit_test b ix iy = false) ∧
    (_find_hit anns ix iy = none ↔
      ∀ (j : Nat) (b : Ann ), anns[j]? = some b → _hit_test b ix iy = false) ∧
    (∀ a0 a1, _hit_test a0 ix iy = true → _hit_test a1 ix iy = true →
      _find_hit [a0, a1] ix iy = some 1) := by
  refine ⟨fun i => find_hit_some_iff anns ix iy i, ?_, ?_⟩
  · rw [_find_hit, findHitFrom_eq_none]
    constructor
    · intro h j b hjb
      obtain ⟨hjl, -⟩ := List.getElem?_eq_some.mp hjb
      exact h j b hjl hjb
    · intro h j b _ hjb
      exact h j b hjb
  · intro a0 a1 h0 h1
    refine (find_hit_some_iff [a0, a1] ix iy 1).mpr ⟨⟨a1, rfl, h1⟩, ?_⟩
    intro j b hj hjb
    rw [List.getElem?_eq_none (by simpa using hj)] at hjb
    cases hjb

/-- C5 (amended): a pointer-down with one of the four shape tools active
(`rectangle`, `fill_rectangle`, `circle`, `fill_circle`) begins
`drawing_shape`: it records the start point in widget and image space and
initializes the end point equal to the start point.  (The `text` tool does
not take this path; text entry starts from the click handler instead.) -/
theorem drag_begin_shape_tool_starts_drawing (s : EditorState) (sx sy : ℚ)
    (h : s.current_tool ∈ (["rectangle", "fill_rectangle", "circle", "fill_circle"] : List String)) :
    (_on_drag_begin s sx sy).dragging = true ∧
    (_on_drag_begin s sx sy).widget_drag_start = some (sx, sy) ∧
    (_on_drag_begin s sx sy).drag_start = some (_widget_to_image s sx sy) ∧
    (_on_drag_begin s sx sy).drag_end = some (_widget_to_image s sx sy) := by
  rw [drag_begin_shape s sx sy h]
  exact ⟨rfl, rfl, rfl, rfl⟩

/-- C6: undo on an empty undo stack is a complete no-op (annotations, both
stacks and the selection are untouched), and symmetrically for redo on an
empty redo stack. -/
theorem noop_undo_redo_on_empty (s : EditorState) :
    (s.undo_stack = [] → _on_undo s = s) ∧ (s.redo_stack = [] → _on_redo s = s) :=
  ⟨undo_empty_noop s, redo_empty_noop s⟩

/-- C7: the bounding box of a text annotation is
`(x1, y1 - 24, x1 + max (len * 14) 20, y1 + 4)`; for `"hi"` anchored at
`(2, 10)` this is exactly `(2, -14, 30, 14)`. -/
theorem text_bbox_formula (ann : Ann) (h : ann.kind = "text") :
    _annotation_bbox ann =
      (ann.x1, ann.y1 - 24, ann.x1 + max ((ann.text.length : ℚ) * 14) 20, ann.y1 + 4) ∧
    _annotation_bbox { kind := "text", x1 := 2, y1 := 10, x2 := 2, y2 := 10,
                       color := (1, 0, 0, 1), text := "hi" } = (2, -14, 30, 14) := by
  constructor
  · simp [_annotation_bbox, h]
  · have hlen2 : ("hi" : String).length = 2 := rfl
    simp only [_annotation_bbox]
    norm_num [hlen2]

/-- C8: the saved output depends only on the base surface and the
annotation sequence — any two states agreeing on those render identical
output whatever their zoom, pan, scale, offsets, drag or selection state —
it has the base image's native resolution, and it contains no `set_dash`
call (the signature of the selection indicator, the only dash user in the
module). -/
theorem render_output_viewport_independent (s t : EditorState)
    (hsurf : s.surface = t.surface) (hann : s.annotations = t.annotations) :
    _render_output_surface s = _render_output_surface t ∧
    (_render_output_surface s).width = s.surface.width ∧
    (_render_output_surface s).height = s.surface.height ∧
    (∀ pat, DrawCmd.set_dash pat ∉ (_render_output_surface s).cmds) ∧
    (∀ a, DrawCmd.set_dash [6, 4] ∈ _render_selection_indicator a) := by
  refine ⟨?_, rfl, rfl, ?_, ?_⟩
  · simp [_render_output_surface, hsurf, hann]
  · intro pat hmem
    simp only [_render_output_surface, List.mem_append, List.mem_cons,
      List.mem_flatMap, List.not_mem_nil, or_false] at hmem
    rcases hmem with hmem | ⟨a, -, ha⟩
    · simp at hmem
    · exact no_dash_render_ann a pat ha
  · intro a
    simp [_render_selection_indicator]

/-- C9: `_do_save` returns the editor state unchanged in every branch (the
source method never touches the annotations or the history stacks), and a
failure of path resolution or of the secure write surfaces as the
non-fatal status message `could not save image (<detail>)`. -/
theorem save_failure_keeps_store (s : EditorState) (env : SaveEnv) :
    ((_do_save s env).1 = s) ∧
    (∀ e, env.build_output_path = Except.error e →
      (_do_save s env).2.2 = SaveOutcome.status_message ("could not save image (" ++ e ++ ")")) ∧
    (∀ d e, env.build_output_path = Except.ok d →
      (_write_surface_png_securely env (_render_output_surface s) d).2 = Except.error e →
      (_do_save s env).2.2 = SaveOutcome.status_message ("could not save image (" ++ e ++ ")")) := by
  refine ⟨?_, ?_, ?_⟩
  · rcases hb : env.build_output_path with e | d
    · simp [_do_save, hb]
    · rcases hw : (_write_surface_png_securely env (_render_output_surface s) d).2 with e | u
      · simp [_do_save, hb, hw]
      · simp [_do_save, hb, hw]
  · intro e he
    simp [_do_save, he]
  · intro d e hd hw
    simp [_do_save, hd, hw]

/-- C10: if a file already exists at the resolved destination, the secure
write raises before writing any bytes (`O_CREAT | O_EXCL` semantics): the
call returns the file system completely unchanged together with an error,
and the pre-existing contents are still in place. -/
theorem save_write_never_overwrites (env : SaveEnv) (surface : OutputImage)
    (dest : String) (contents : List Nat)
    (hex : env.fs.files.lookup (env.resolve dest) = some contents) :
    ∃ e, _write_surface_png_securely env surface dest = (env.fs, Except.error e) ∧
      (_write_surface_png_securely env surface dest).1.files.lookup (env.resolve dest) =
        some contents := by
  by_cases hp : env.parent_of (env.resolve dest) ∈ env.fs.dirs
  · have hw : _write_surface_png_securely env surface dest =
        (env.fs, Except.error "FileExistsError") := by
      simp [_write_surface_png_securely, hp, hex]
    exact ⟨"FileExistsError", hw, by rw [hw]; exact hex⟩
  · have hw : _write_surface_png_securely env surface dest =
        (env.fs, Except.error "destination directory does not exist") := by
      simp [_write_surface_png_securely, hp]
    exact ⟨"destination directory does not exist", hw, by rw [hw]; exact hex⟩

/-- A concrete rectangle annotation used by the witnesses. -/
def ex_rect : Ann :=
  { kind := "rectangle", x1 := 0, y1 := 0, x2 := 10, y2 := 10, color := (1, 0, 0, 1) }

/-- A concrete circle annotation overlapping `ex_rect`. -/
def ex_circle : Ann :=
  { kind := "circle", x1 := 2, y1 := 2, x2 := 8, y2 := 8, color := (0, 1, 0, 1) }

/-- A concrete text annotation, the regression value of the spec. -/
def ex_text_ann : Ann :=
  { kind := "text", x1 := 2, y1 := 10, x2 := 2, y2 := 10, color := (1, 0, 0, 1), text := "hi" }

/-- A concrete quiescent editor state: one rectangle, empty history,
`select` tool, unit viewport, no gesture in flight. -/
def ex_base : EditorState :=
  { surface := { width := 100, height := 80, content := [0] },
    annotations := [ex_rect],
    undo_stack := [], redo_stack := [],
    current_tool := "select", current_color := (1, 0, 0, 1),
    selected_index := none,
    dragging := false, drag_start := none, drag_end := none, widget_drag_start := none,
    move_dragging := false, move_drag_start_img := none, move_orig_ann := none,
    pre_move_snapshot := none,
    pan_dragging := false, pan_drag_start := none, pan_start_values := none,
    base_scale := 1, zoom := 1, scale := 1, offset_x := 0, offset_y := 0,
    pan_x := 0, pan_y := 0 }

def ex_sel : EditorState := { ex_base with selected_index := some 0 }

def ex_text_tool : EditorState := { ex_base with current_tool := "text" }

def ex_shape_tool : EditorState := { ex_base with current_tool := "rectangle" }

/-- Same surface and annotations as `ex_base`, but a thoroughly different
viewport, drag and selection state. -/
def ex_viewport2 : EditorState :=
  { ex_base with
    zoom := 2
    scale := 2
    base_scale := 2
    pan_x := 7
    pan_y := -3
    offset_x := 5
    offset_y := 4
    selected_index := some 0
    dragging := true
    drag_start := some (1, 1)
    drag_end := some (2, 2)
    current_tool := "circle" }

/-- A concrete save environment whose path resolution fails. -/
def ex_env : SaveEnv :=
  { fs := { files := [("/p/shot.png", [1, 2])], dirs := ["/p"] },
    build_output_path := Except.error "no destination",
    resolve := fun p => p,
    parent_of := fun _ => "/p",
    encode_png := fun _ => [9],
    write_ok := true, leftover := [], unlink_ok := true }

/-- C5 counterexample: with the `text` tool active, pointer-down does not
enter the drawing state — `_on_drag_begin` leaves the state completely
unchanged (`dragging` stays `false`, no start point is recorded), refuting
the claim that the text tool begins `drawing_shape` on pointer-down. -/
theorem drag_begin_text_tool_counterexample :
    _on_drag_begin ex_text_tool 10 20 = ex_text_tool ∧
    (_on_drag_begin ex_text_tool 10 20).dragging = false ∧
    (_on_drag_begin ex_text_tool 10 20).drag_start = none := by
  have h : _on_drag_begin ex_text_tool 10 20 = ex_text_tool := by
    simp [_on_drag_begin, ex_text_tool, ex_base]
  exact ⟨h, by rw [h]; rfl, by rw [h]; rfl⟩

theorem undo_redo_inverse_law_witness :
    ∃ s', applyOp MutOp.delete_selected ex_sel = some s' ∧
      (_on_undo s').annotations = ex_sel.annotations ∧
      (_on_redo (_on_undo s')).annotations = s'.annotations :=
  undo_redo_inverse_law MutOp.delete_selected ex_sel
    ⟨0, rfl, by norm_num [ex_sel, ex_base]⟩

theorem redo_invalidation_law_witness :
    ∃ s', applyOp (MutOp.add_shape 1 1 2 2) ex_shape_tool = some s' ∧
      s'.redo_stack = [] ∧ _on_redo s' = s' :=
  redo_invalidation_law (MutOp.add_shape 1 1 2 2) ex_shape_tool
    ⟨by decide, rfl, rfl⟩

theorem find_hit_topmost_witness :
    _find_hit [ex_rect, ex_circle] 5 5 = some 1 :=
  (find_hit_topmost [ex_rect, ex_circle] 5 5).2.2 ex_rect ex_circle
    (by norm_num [_hit_test, _annotation_bbox, ex_rect,
      (by decide : ("rectangle" : String) ≠ "text")])
    (by norm_num [_hit_test, _annotation_bbox, ex_circle,
      (by decide : ("circle" : String) ≠ "text")])

theorem move_round_trip_witness :
    ∃ s3, (_on_drag_update (_on_drag_begin ex_base 5 5) 2 3).bind
        (fun s1 => (_on_drag_update s1 0 0).bind (fun s2 => _on_drag_end s2 0 0)) = some s3 ∧
      s3.annotations = ex_base.annotations ∧
      s3.undo_stack = ex_base.undo_stack ∧
      s3.redo_stack = ex_base.redo_stack :=
  move_round_trip ex_base 5 5 2 3 rfl (by
    have hp : _widget_to_image ex_base 5 5 = (5, 5) := by
      norm_num [_widget_to_image, ex_base]
    simp only [hp]
    have hf : _find_hit ex_base.annotations 5 5 = some 0 := by
      refine (find_hit_some_iff ex_base.annotations 5 5 0).mpr ⟨⟨ex_rect, rfl, ?_⟩, ?_⟩
      · norm_num [_hit_test, _annotation_bbox, ex_rect,
          (by decide : ("rectangle" : String) ≠ "text")]
      · intro j b hj hjb
        rw [List.getElem?_eq_none (by simp [ex_base]; omega)] at hjb
        cases hjb
    rw [hf]
    rfl)

theorem drag_begin_shape_tool_starts_drawing_witness :
    (_on_drag_begin ex_shape_tool 3 4).dragging = true ∧
    (_on_drag_begin ex_shape_tool 3 4).widget_drag_start = some (3, 4) ∧
    (_on_drag_begin ex_shape_tool 3 4).drag_start = some (_widget_to_image ex_shape_tool 3 4) ∧
    (_on_drag_begin ex_shape_tool 3 4).drag_end = some (_widget_to_image ex_shape_tool 3 4) :=
  drag_begin_shape_tool_starts_drawing ex_shape_tool 3 4 (by decide)

theorem noop_undo_redo_on_empty_witness :
    _on_undo ex_base = ex_base ∧ _on_redo ex_base = ex_base :=
  ⟨(noop_undo_redo_on_empty ex_base).1 rfl, (noop_undo_redo_on_empty ex_base).2 rfl⟩

theorem text_bbox_formula_witness :
    _annotation_bbox ex_text_ann =
      (ex_text_ann.x1, ex_text_ann.y1 - 24,
       ex_text_ann.x1 + max ((ex_text_ann.text.length : ℚ) * 14) 20, ex_text_ann.y1 + 4) :=
  (text_bbox_formula ex_text_ann rfl).1

theorem render_output_viewport_independent_witness :
    _render_output_surface ex_base = _render_output_surface ex_viewport2 ∧
    (_render_output_surface ex_base).width = ex_base.surface.width ∧
    (_render_output_surface ex_base).height = ex_base.surface.height ∧
    DrawCmd.set_dash [6, 4] ∉ (_render_output_surface ex_base).cmds := by
  have h := render_output_viewport_independent ex_base ex_viewport2 rfl rfl
  exact ⟨h.1, h.2.1, h.2.2.1, h.2.2.2.1 [6, 4]⟩

theorem save_failure_keeps_store_witness :
    (_do_save ex_base ex_env).1 = ex_base ∧
    (_do_save ex_base ex_env).2.2 =
      SaveOutcome.status_message ("could not save image (" ++ "no destination" ++ ")") :=
  ⟨(save_failure_keeps_store ex_base ex_env).1,
   (save_failure_keeps_store ex_base ex_env).2.1 "no destination" rfl⟩

theorem save_write_never_overwrites_witness :
    ∃ e, _write_surface_png_securely ex_env (_render_output_surface ex_base) "/p/shot.png" =
        (ex_env.fs, Except.error e) ∧
      (_write_surface_png_securely ex_env (_render_output_surface ex_base)
        "/p/shot.png").1.files.lookup (ex_env.resolve "/p/shot.png") = some [1, 2] :=
  save_write_never_overwrites ex_env (_render_output_surface ex_base) "/p/shot.png" [1, 2]
    (by decide)
